import Mathlib

/-!
Shallow embedding of `zds/search2/models.py`: the Elasticsearch indexing
mixins (`ESIndexableMixin`, `ESDjangoIndexableMixin`) and the bulk engine
(`ESIndexManager`), together with theorems checking the specification's
claims about them.

Python classes are modelled by an inductive type recording the class name
and the (ordered) list of direct base classes; the two framework mixin
classes are distinguished constructors, since `get_es_content_type`
compares against `ESDjangoIndexableMixin` by identity and tests
`issubclass(base, ESIndexableMixin)`. The Django table of a model is
modelled by the list of its rows, and the remote `streaming_bulk`
collaborator by the ordered list of per-item results it yields.
-/

set_option maxHeartbeats 1000000

/-- Python's `str.lower()` on class names (all ASCII here): lowercase each
character. -/
def pyLower (s : String) : String := ⟨s.data.map Char.toLower⟩

/-- Model of a Python class, as far as `get_es_content_type` observes it:
its name, its direct bases, and whether it is one of the two framework
mixin classes. `plainClass` stands for a class outside the indexable
hierarchy (e.g. `models.Model` or `object`). -/
inductive PyClass where
  | esIndexableMixin : PyClass
  | esDjangoIndexableMixin : PyClass
  | plainClass : String → PyClass
  | userClass : String → List PyClass → PyClass

/-- The `__name__` attribute of the class. -/
def className : PyClass → String
  | PyClass.esIndexableMixin => "ESIndexableMixin"
  | PyClass.esDjangoIndexableMixin => "ESDjangoIndexableMixin"
  | PyClass.plainClass n => n
  | PyClass.userClass n _ => n

/-- The `__bases__` attribute of the class (direct base classes, in
declaration order). `ESDjangoIndexableMixin(ESIndexableMixin, models.Model)`
is hard-coded from the source. -/
def classBases : PyClass → List PyClass
  | PyClass.esIndexableMixin => [PyClass.plainClass "object"]
  | PyClass.esDjangoIndexableMixin => [PyClass.esIndexableMixin, PyClass.plainClass "Model"]
  | PyClass.plainClass _ => []
  | PyClass.userClass _ bs => bs

/-- Python's `base != ESDjangoIndexableMixin` (class identity test). -/
def isESDjangoIndexableMixin : PyClass → Bool
  | PyClass.esDjangoIndexableMixin => true
  | _ => false

mutual

/-- Python's `issubclass(c, ESIndexableMixin)`: `c` is `ESIndexableMixin`
itself, or inherits it (directly or transitively). -/
def isIndexableSubclass : PyClass → Bool
  | PyClass.esIndexableMixin => true
  | PyClass.esDjangoIndexableMixin => true
  | PyClass.plainClass _ => false
  | PyClass.userClass _ bs => anyIndexableSubclass bs

/-- Helper for `isIndexableSubclass`: some class in the list is a subclass
of `ESIndexableMixin`. -/
def anyIndexableSubclass : List PyClass → Bool
  | [] => false
  | c :: cs => isIndexableSubclass c || anyIndexableSubclass cs

end

/-- The loop body of `ESIndexableMixin.get_es_content_type`: prepend the
lowercased base name when the base passes the filter. -/
def contentTypeStep (content_type : String) (base : PyClass) : String :=
  if isIndexableSubclass base && !(isESDjangoIndexableMixin base) then
    pyLower (className base) ++ "_" ++ content_type
  else
    content_type

/-- `ESIndexableMixin.get_es_content_type` (models.py lines 28-38):
start from the lowercased class name and, for each direct base that is a
subclass of `ESIndexableMixin` and is not `ESDjangoIndexableMixin`,
prepend that base's lowercased name followed by an underscore. -/
def get_es_content_type (cls : PyClass) : String :=
  (classBases cls).foldl contentTypeStep (pyLower (className cls))

mutual

/-- Modelled from the spec's words for the content-type resolver: the full
chain of indexable-capability ancestors, most-general first, own name
last, lowercased, with the generic/base indexable marker types excluded. -/
def specAncestorChain : PyClass → List String
  | PyClass.esIndexableMixin => []
  | PyClass.esDjangoIndexableMixin => []
  | PyClass.plainClass _ => []
  | PyClass.userClass n bs => specAncestorChainList bs ++ [pyLower n]

/-- Helper for `specAncestorChain`: chains of a list of bases, concatenated
in declaration order. -/
def specAncestorChainList : List PyClass → List String
  | [] => []
  | c :: cs => specAncestorChain c ++ specAncestorChainList cs

end

/-- The content type as the specification describes it: the ancestry chain
joined with underscores. -/
def get_es_content_type_spec (cls : PyClass) : String :=
  String.intercalate "_" (specAncestorChain cls)

/-- Lowercased names of the direct bases that pass the source's filter
(subclass of `ESIndexableMixin`, not `ESDjangoIndexableMixin`), in
declaration order. -/
def directBaseNames (cls : PyClass) : List String :=
  ((classBases cls).filter fun b =>
    isIndexableSubclass b && !(isESDjangoIndexableMixin b)).map
    (fun b => pyLower (className b))

/-- The amended description of the content type: qualifying direct bases in
reverse declaration order, then the class's own name, lowercased and joined
with underscores. -/
def get_es_content_type_amended (cls : PyClass) : String :=
  String.intercalate "_" ((directBaseNames cls).reverse ++ [pyLower (className cls)])

/-- Depth-3 test hierarchy: `class A(ESDjangoIndexableMixin)`. -/
def clsA : PyClass := PyClass.userClass "A" [PyClass.esDjangoIndexableMixin]

/-- Depth-3 test hierarchy: `class B(A)`. -/
def clsB : PyClass := PyClass.userClass "B" [clsA]

/-- Depth-3 test hierarchy: `class C(B)`. -/
def clsC : PyClass := PyClass.userClass "C" [clsB]

/-- A Python value appearing in a document field. -/
inductive PyValue where
  | pyNone : PyValue
  | pyStr : String → PyValue
  | pyInt : Int → PyValue
  | pyBool : Bool → PyValue
deriving DecidableEq

/-- An attribute of an entity, as `get_es_document_source` observes it:
either a plain value, or a zero-argument callable (a method), modelled by
the value it returns when invoked. -/
inductive Attr where
  | plainValue : PyValue → Attr
  | callableValue : PyValue → Attr
deriving DecidableEq

/-- An indexable entity instance. `cls` is its Python class,
`mappingFields` the field names declared by `get_es_mapping().properties`
(the keys of the mapping's property dict), `attrs` its attribute
dictionary, `pk` its Django primary key (`none` when unset), and
`es_id` / `es_flagged` / `es_already_indexed` the sync-state fields of
the mixins. -/
structure Entity where
  cls : PyClass
  mappingFields : List String
  attrs : List (String × Attr)
  pk : Option Int
  es_id : String
  es_flagged : Bool
  es_already_indexed : Bool

/-- Python's `getattr(self, field, None)` over the attribute dictionary. -/
def getattrOrNone (attrs : List (String × Attr)) (field : String) : Attr :=
  match attrs.lookup field with
  | some a => a
  | none => Attr.plainValue PyValue.pyNone

/-- Python's `if callable(v): v = v()`: a plain value is kept, a callable
is invoked to obtain its value. -/
def resolveAttr : Attr → PyValue
  | Attr.plainValue v => v
  | Attr.callableValue v => v

/-- `ESIndexableMixin.get_es_document_source` (models.py lines 75-97):
for every field of the mapping, read the attribute (defaulting to `None`),
invoke it if callable, and record it under the field name. -/
def Entity.get_es_document_source (e : Entity) : List (String × PyValue) :=
  e.mappingFields.map (fun field => (field, resolveAttr (getattrOrNone e.attrs field)))

/-- `ESIndexableMixin.es_done_indexing` (models.py lines 99-107): record
the id given by ES and mark the entity as already indexed. -/
def ESIndexableMixin.es_done_indexing (e : Entity) (es_id : String) : Entity :=
  { e with es_id := es_id, es_already_indexed := true }

/-- `ESDjangoIndexableMixin.save` (models.py lines 171-181): sets
`es_flagged` from the `es_flagged` keyword argument, defaulting to `true`,
then persists via `models.Model.save`. -/
def ESDjangoIndexableMixin.save (e : Entity) (es_flagged_kwarg : Option Bool) : Entity :=
  { e with es_flagged := es_flagged_kwarg.getD true }

/-- `ESDjangoIndexableMixin.es_done_indexing` (models.py lines 183-185):
the base bookkeeping followed by `self.save(es_flagged=False)`. -/
def ESDjangoIndexableMixin.es_done_indexing (e : Entity) (es_id : String) : Entity :=
  ESDjangoIndexableMixin.save (ESIndexableMixin.es_done_indexing e es_id) (some false)

/-- Python's `str(self.pk)`: decimal representation of the integer primary
key, or the literal string `"None"` when the key is unset. -/
def pyStrOfPk : Option Int → String
  | Option.none => "None"
  | some n => Int.repr n

/-- `ESDjangoIndexableMixin.__init__` (models.py lines 127-130): after the
Django initialisation, set `es_id` to `str(self.pk)`. -/
def ESDjangoIndexableMixin.init (e : Entity) : Entity :=
  { e with es_id := pyStrOfPk e.pk }

/-- `ESDjangoIndexableMixin.get_es_django_indexable` (models.py lines
144-160), with the Django table modelled as the list of its rows: the whole
table when `force_reindexing`, otherwise only the rows with
`es_flagged=True`. -/
def ESDjangoIndexableMixin.get_es_django_indexable
    (db : List Entity) (force_reindexing : Bool) : List Entity :=
  if force_reindexing then db else db.filter (fun e => e.es_flagged)

/-- `ESDjangoIndexableMixin.get_es_indexable` (models.py lines 162-168):
`list(q.all())` of the queryset above. -/
def ESDjangoIndexableMixin.get_es_indexable
    (db : List Entity) (force_reindexing : Bool) : List Entity :=
  ESDjangoIndexableMixin.get_es_django_indexable db force_reindexing

/-- One line of the `_bulk` payload, as built by `make_es_document`. A
field is `none` exactly when the corresponding dict key is absent. -/
structure ESDocument where
  op_type : String
  index : String
  typeName : String
  id : Option String
  source : Option (List (String × PyValue))
  doc : Option (List (String × PyValue))
deriving DecidableEq

/-- `ESIndexManager.make_es_document` (models.py lines 210-243): raise a
`ValueError` for an unknown action, otherwise build the bulk dict: always
`_op_type`, `_index` and `_type`; for `index`, `_source` and (only when
`es_id` is non-empty) `_id`; for `update`, `_id` and `doc`; for `delete`,
`_id` only. -/
def make_es_document (indexName : String) (obj : Entity) (action : String) :
    Except String ESDocument :=
  if (["index", "update", "delete"].contains action) = false then
    Except.error "action must be `index`, `update` or `delete`"
  else
    let document : ESDocument :=
      { op_type := action, index := indexName, typeName := get_es_content_type obj.cls,
        id := none, source := none, doc := none }
    let document := if action = "index" then
        { document with
            id := if obj.es_id ≠ "" then some obj.es_id else none,
            source := some obj.get_es_document_source }
      else document
    let document := if action = "update" then
        { document with id := some obj.es_id, doc := some obj.get_es_document_source }
      else document
    let document := if action = "delete" then
        { document with id := some obj.es_id }
      else document
    Except.ok document

/-- The action chosen for an entity in `es_bulk_action_on_model` (models.py
lines 261-263 and 267): `'update' if obj.es_already_indexed and not
force_reindexing else 'index'`. -/
def bulkActionFor (obj : Entity) (force_reindexing : Bool) : String :=
  if obj.es_already_indexed && !force_reindexing then "update" else "index"

/-- The document `make_es_document` builds for the action the bulk pass
chooses, in closed form. -/
def builtDocument (indexName : String) (force_reindexing : Bool) (obj : Entity) : ESDocument :=
  if obj.es_already_indexed && !force_reindexing then
    { op_type := "update", index := indexName, typeName := get_es_content_type obj.cls,
      id := some obj.es_id, source := none, doc := some obj.get_es_document_source }
  else
    { op_type := "index", index := indexName, typeName := get_es_content_type obj.cls,
      id := if obj.es_id ≠ "" then some obj.es_id else none,
      source := some obj.get_es_document_source, doc := none }

/-- One per-item result of `streaming_bulk`: the `(ok, hit)` pair, with the
hit's per-action result object reduced to its `_id` (so `hit[action]['_id']`
becomes a lookup of `action`; a missing key is Python's `KeyError`). -/
structure BulkHit where
  ok : Bool
  hit : List (String × String)

/-- Python's `hit[action]['_id']`, as an `Option` (a `none` is a
`KeyError`). -/
def hitId (h : BulkHit) (action : String) : Option String :=
  h.hit.lookup action

/-- The reconciliation loop of `es_bulk_action_on_model` (models.py lines
265-268): for each per-item result, in submission order, re-derive the
action for the entity at the same position and call its
`es_done_indexing(es_id=hit[action]['_id'])`. A position beyond the entity
list is Python's `IndexError`; a missing action key is a `KeyError`. -/
def es_bulk_reconcile (force_reindexing : Bool) :
    List Entity → Nat → List BulkHit → Except String (List Entity)
  | objs, _, [] => Except.ok objs
  | objs, index, h :: rest =>
    match objs[index]? with
    | Option.none => Except.error "IndexError: list index out of range"
    | some obj =>
      match hitId h (bulkActionFor obj force_reindexing) with
      | Option.none => Except.error "KeyError"
      | some given_id =>
        es_bulk_reconcile force_reindexing
          (objs.set index (ESDjangoIndexableMixin.es_done_indexing obj given_id))
          (index + 1) rest

/-- `ESIndexManager.es_bulk_action_on_model` (models.py lines 245-268),
with the remote `streaming_bulk` collaborator modelled by the ordered list
of per-item results it yields: select the pending entities, build one
document per entity with the chosen action, then run the reconciliation
loop over the results. The built documents and the final entity states are
returned as the observables of the pass. -/
def es_bulk_action_on_model (indexName : String) (db : List Entity)
    (force_reindexing : Bool) (hits : List BulkHit) :
    Except String (List ESDocument × List Entity) := do
  let objs := ESDjangoIndexableMixin.get_es_indexable db force_reindexing
  let documents ← objs.mapM
    (fun obj => make_es_document indexName obj (bulkActionFor obj force_reindexing))
  let final ← es_bulk_reconcile force_reindexing objs 0 hits
  return (documents, final)

/-- Write the updated states of the selected (flagged) rows back into the
table, in order; unflagged rows (which were not selected when
`force_reindexing` is false) are kept as they are. Models the row-level
`save()` writes of the pass on the `force_reindexing=false` path. -/
def mergeBack : List Entity → List Entity → List Entity
  | [], _ => []
  | e :: rest, updated =>
    if e.es_flagged then
      match updated with
      | [] => e :: mergeBack rest []
      | u :: us => u :: mergeBack rest us
    else e :: mergeBack rest updated

/-- The whole bulk pass as the database observes it. The function is
decorated with `@atomic` (models.py line 245): Django commits the row
writes only if the decorated body runs to completion, and rolls every
write back when it raises, leaving the table unchanged. -/
def es_bulk_pass (indexName : String) (db : List Entity)
    (force_reindexing : Bool) (hits : List BulkHit) : List Entity :=
  match es_bulk_action_on_model indexName db force_reindexing hits with
  | Except.ok (_, final) => if force_reindexing then final else mergeBack db final
  | Except.error _ => db

/-- A concrete model class, `class Topic(ESDjangoIndexableMixin)`. -/
def sampleCls : PyClass := PyClass.userClass "Topic" [PyClass.esDjangoIndexableMixin]

/-- A flagged entity that was never indexed. -/
def entityFresh : Entity :=
  { cls := sampleCls, mappingFields := ["title", "pk"],
    attrs := [("title", Attr.plainValue (PyValue.pyStr "hello")),
              ("pk", Attr.plainValue (PyValue.pyInt 1))],
    pk := some 1, es_id := "1", es_flagged := true, es_already_indexed := false }

/-- A flagged entity that was already indexed under the external id "42". -/
def entityIndexed : Entity :=
  { cls := sampleCls, mappingFields := ["title", "pk"],
    attrs := [("title", Attr.plainValue (PyValue.pyStr "old")),
              ("pk", Attr.plainValue (PyValue.pyInt 2))],
    pk := some 2, es_id := "42", es_flagged := true, es_already_indexed := true }

/-- An already-indexed entity whose external id is unknown (empty). -/
def entityNoId : Entity :=
  { cls := sampleCls, mappingFields := ["title"],
    attrs := [("title", Attr.plainValue (PyValue.pyStr "x"))],
    pk := none, es_id := "", es_flagged := true, es_already_indexed := true }

/-- A two-row table for the concrete bulk runs. -/
def dbW : List Entity := [entityFresh, entityIndexed]

/-- The remote result for `entityFresh` (an `index` operation). -/
def hitW0 : BulkHit := ⟨true, [("index", "10")]⟩

/-- The remote result for `entityIndexed` (an `update` operation). -/
def hitW1 : BulkHit := ⟨true, [("update", "42")]⟩

/-- The ordered per-item results of the concrete bulk run. -/
def hitsW : List BulkHit := [hitW0, hitW1]

/-- The documents the concrete bulk run builds. -/
def docsW : List ESDocument :=
  [builtDocument "the_index" false entityFresh, builtDocument "the_index" false entityIndexed]

/-- The entity states after the concrete bulk run. -/
def finalW : List Entity :=
  [ESDjangoIndexableMixin.es_done_indexing entityFresh "10",
   ESDjangoIndexableMixin.es_done_indexing entityIndexed "42"]

/-- The operation `make_es_document` builds for an `update` of
`entityNoId`: its `_id` field is present but empty. -/
def updateDocNoId : ESDocument :=
  { op_type := "update", index := "the_index", typeName := "topic",
    id := some "", source := none, doc := some [("title", PyValue.pyStr "x")] }

/-- Unfolding lemma for `String.intercalate.go`: a cons argument appends the
separator and continues. -/
theorem intercalate_go_cons : ∀ (l : List String) (acc a : String),
    String.intercalate.go acc "_" (a :: l) = acc ++ "_" ++ String.intercalate.go a "_" l := by
  intro l
  induction l with
  | nil => intro acc a; rfl
  | cons b bs ih =>
    intro acc a
    show String.intercalate.go (acc ++ "_" ++ a) "_" (b :: bs) = _
    rw [ih (acc ++ "_" ++ a) b, ih a b]
    simp [String.append_assoc]

/-- Joining `l ++ [own]` with underscores is the right fold that prepends
each element of `l` (with a separator) onto `own`. -/
theorem intercalate_append_singleton : ∀ (l : List String) (own : String),
    String.intercalate "_" (l ++ [own]) = l.foldr (fun s acc => s ++ "_" ++ acc) own := by
  intro l
  induction l with
  | nil => intro own; rfl
  | cons a as ih =>
    intro own
    show String.intercalate.go a "_" (as ++ [own]) = a ++ "_" ++ as.foldr _ own
    rw [← ih own]
    cases as with
    | nil => rfl
    | cons b bs =>
      show String.intercalate.go a "_" (b :: (bs ++ [own])) = _
      rw [intercalate_go_cons]
      rfl

/-- Closed form of the source's fold over the direct bases: it prepends the
lowercased names of the qualifying bases, in reverse declaration order. -/
theorem foldl_contentTypeStep : ∀ (bs : List PyClass) (init : String),
    bs.foldl contentTypeStep init =
      (((bs.filter fun b => isIndexableSubclass b && !(isESDjangoIndexableMixin b)).map
        (fun b => pyLower (className b))).reverse).foldr (fun s acc => s ++ "_" ++ acc) init := by
  intro bs
  induction bs with
  | nil => intro init; rfl
  | cons b rest ih =>
    intro init
    by_cases hq : (isIndexableSubclass b && !(isESDjangoIndexableMixin b)) = true
    · simp only [List.foldl_cons, List.filter_cons, hq, if_true, List.map_cons,
        List.reverse_cons, List.foldr_append, List.foldr_cons, List.foldr_nil]
      rw [ih]
      simp [contentTypeStep, hq]
    · simp only [List.foldl_cons, List.filter_cons, hq, if_false, Bool.false_eq_true]
      rw [← ih]
      simp [contentTypeStep, hq]

/-- Building the document for the action the bulk pass chooses always
succeeds and yields `builtDocument`. -/
theorem make_es_document_bulk_action (idx : String) (force : Bool) (obj : Entity) :
    make_es_document idx obj (bulkActionFor obj force) =
      Except.ok (builtDocument idx force obj) := by
  by_cases h : (obj.es_already_indexed && !force) = true
  · simp [bulkActionFor, make_es_document, builtDocument, h]
  · simp [bulkActionFor, make_es_document, builtDocument, h]

/-- A `mapM` over `Except` whose body always succeeds is the `map` of the
successful results. -/
theorem mapM_ok_of_all_ok {α β : Type} (f : α → Except String β) (g : α → β)
    (h : ∀ x, f x = Except.ok (g x)) : ∀ l : List α, l.mapM f = Except.ok (l.map g) := by
  intro l
  induction l with
  | nil => rfl
  | cons a as ih =>
    rw [List.mapM_cons, h a, ih]
    rfl

/-- Decomposition of a successful bulk pass: the documents are the map of
`builtDocument` over the selected entities, and the reconciliation loop on
the selected entities succeeded with the final states. -/
theorem bulk_ok_parts {idx : String} {db : List Entity} {force : Bool} {hits : List BulkHit}
    {documents : List ESDocument} {final : List Entity}
    (h : es_bulk_action_on_model idx db force hits = Except.ok (documents, final)) :
    documents = (ESDjangoIndexableMixin.get_es_indexable db force).map (builtDocument idx force) ∧
    es_bulk_reconcile force (ESDjangoIndexableMixin.get_es_indexable db force) 0 hits =
      Except.ok final := by
  unfold es_bulk_action_on_model at h
  simp only [mapM_ok_of_all_ok _ _ (fun obj => make_es_document_bulk_action idx force obj)] at h
  cases hrec : es_bulk_reconcile force (ESDjangoIndexableMixin.get_es_indexable db force) 0 hits with
  | error e =>
    rw [hrec] at h
    simp [Bind.bind, Except.bind] at h
  | ok fin =>
    rw [hrec] at h
    simp only [Bind.bind, Except.bind, pure, Except.pure, Except.ok.injEq, Prod.mk.injEq] at h
    exact ⟨h.1.symm, by rw [h.2]⟩

/-- What a successful reconciliation loop does, position by position:
positions outside the window of results are untouched; the position of the
`k`-th result holds `es_done_indexing` of the original entity at that
position, fed with the id the result carries under the re-derived action
key. -/
theorem reconcile_ok_spec (force : Bool) :
    ∀ (hits : List BulkHit) (objs objs' : List Entity) (start : Nat),
    es_bulk_reconcile force objs start hits = Except.ok objs' →
    objs'.length = objs.length ∧
    (∀ j, j < start ∨ start + hits.length ≤ j → objs'[j]? = objs[j]?) ∧
    (∀ k h, hits[k]? = some h → ∃ obj given_id,
       objs[start + k]? = some obj ∧
       hitId h (bulkActionFor obj force) = some given_id ∧
       objs'[start + k]? = some (ESDjangoIndexableMixin.es_done_indexing obj given_id)) := by
  intro hits
  induction hits with
  | nil =>
    intro objs objs' start h
    have hsub : objs = objs' := by
      simpa [es_bulk_reconcile] using h
    subst hsub
    refine ⟨rfl, fun j _ => rfl, fun k hk hx => by simp at hx⟩
  | cons hd rest ih =>
    intro objs objs' start hok
    unfold es_bulk_reconcile at hok
    cases hobj : objs[start]? with
    | none => rw [hobj] at hok; simp at hok
    | some obj =>
      simp only [hobj] at hok
      cases hid : hitId hd (bulkActionFor obj force) with
      | none => simp only [hid] at hok; simp at hok
      | some given_id =>
        simp only [hid] at hok
        have hlen : start < objs.length := (List.getElem?_eq_some.mp hobj).1
        obtain ⟨ihlen, ihuntouched, ihproc⟩ :=
          ih (objs.set start (ESDjangoIndexableMixin.es_done_indexing obj given_id))
            objs' (start + 1) hok
        refine ⟨?_, ?_, ?_⟩
        · rw [ihlen, List.length_set]
        · intro j hj
          have hjne : start ≠ j := by
            rcases hj with hj | hj
            · omega
            · simp only [List.length_cons] at hj; omega
          have hj' : j < start + 1 ∨ start + 1 + rest.length ≤ j := by
            rcases hj with hj | hj
            · exact Or.inl (by omega)
            · simp only [List.length_cons] at hj; exact Or.inr (by omega)
          rw [ihuntouched j hj', List.getElem?_set]
          simp [hjne]
        · intro k h hhit
          cases k with
          | zero =>
            have hhd : hd = h := by simpa using hhit
            subst hhd
            refine ⟨obj, given_id, by simpa using hobj, hid, ?_⟩
            have huntouched := ihuntouched start (Or.inl (Nat.lt_succ_self start))
            rw [Nat.add_zero, huntouched, List.getElem?_set]
            simp [hlen]
          | succ k' =>
            have hh : rest[k']? = some h := by simpa using hhit
            obtain ⟨o, g, h1, h2, h3⟩ := ihproc k' h hh
            have harith : start + (k' + 1) = start + 1 + k' := by omega
            refine ⟨o, g, ?_, h2, ?_⟩
            · rw [harith, ← h1, List.getElem?_set]
              have hne : start ≠ start + 1 + k' := by omega
              simp [hne]
            · rw [harith]
              exact h3

/-- The digit-printing loop only prepends onto its accumulator. -/
theorem toDigitsCore_append (b : Nat) :
    ∀ (fuel n : Nat) (ds : List Char), ∃ l, Nat.toDigitsCore b fuel n ds = l ++ ds := by
  intro fuel
  induction fuel with
  | zero => intro n ds; exact ⟨[], rfl⟩
  | succ f ih =>
    intro n ds
    unfold Nat.toDigitsCore
    by_cases h : n / b = 0
    · exact ⟨[Nat.digitChar (n % b)], by simp [h]⟩
    · obtain ⟨l, hl⟩ := ih (n / b) (Nat.digitChar (n % b) :: ds)
      refine ⟨l ++ [Nat.digitChar (n % b)], ?_⟩
      simp only [h, if_false]
      rw [hl]
      simp

/-- The decimal digits of a natural number are never the empty list. -/
theorem toDigits_ne_nil (b n : Nat) : Nat.toDigits b n ≠ [] := by
  unfold Nat.toDigits Nat.toDigitsCore
  by_cases h : n / b = 0
  · simp [h]
  · simp only [h, if_false]
    obtain ⟨l, hl⟩ := toDigitsCore_append b n (n / b) [Nat.digitChar (n % b)]
    rw [hl]
    simp

/-- `str(n)` of a natural number is never the empty string. -/
theorem nat_repr_ne_empty (n : Nat) : Nat.repr n ≠ "" := by
  unfold Nat.repr
  intro h
  have hdata : (Nat.toDigits 10 n) = [] := by
    have := congrArg String.data h
    simpa [List.asString] using this
  exact toDigits_ne_nil 10 n hdata

/-- `str(n)` of an integer is never the empty string. -/
theorem int_repr_ne_empty (n : Int) : Int.repr n ≠ "" := by
  cases n with
  | ofNat m =>
    show Nat.repr m ≠ ""
    exact nat_repr_ne_empty m
  | negSucc m =>
    show "-" ++ Nat.repr (Nat.succ m) ≠ ""
    intro h
    have := congrArg String.data h
    simp [String.data_append] at this

/-- `str(self.pk)` is never the empty string: it is `"None"` for an unset
key and a decimal numeral otherwise. -/
theorem pyStrOfPk_ne_empty (pk : Option Int) : pyStrOfPk pk ≠ "" := by
  cases pk with
  | none => intro h; simp [pyStrOfPk] at h
  | some n => exact int_repr_ne_empty n

/-- The operation kind of the built document is the chosen action. -/
theorem builtDocument_op_type (idx : String) (force : Bool) (obj : Entity) :
    (builtDocument idx force obj).op_type = bulkActionFor obj force := by
  by_cases h : (obj.es_already_indexed && !force) = true <;>
    simp [builtDocument, bulkActionFor, h]

/-- The chosen action is `"update"` exactly when the entity was already
indexed and no reindexing is forced, and `"index"` otherwise. -/
theorem bulkActionFor_update_iff (obj : Entity) (force : Bool) :
    (bulkActionFor obj force = "update" ↔ (obj.es_already_indexed = true ∧ force = false)) ∧
    (¬(obj.es_already_indexed = true ∧ force = false) → bulkActionFor obj force = "index") := by
  cases hb : obj.es_already_indexed <;> cases hf : force <;>
    simp [bulkActionFor, hb, hf]

/-- Looking a key up in a list of pairs built by tagging each key with a
value computed from it returns that computed value. -/
theorem lookup_map_self (g : String → PyValue) :
    ∀ (l : List String) (f : String), f ∈ l →
      (l.map (fun x => (x, g x))).lookup f = some (g f) := by
  intro l
  induction l with
  | nil => intro f hf; simp at hf
  | cons a as ih =>
    intro f hf
    by_cases hfa : f = a
    · subst hfa
      simp [List.lookup]
    · have hbeq : (f == a) = false := beq_eq_false_iff_ne.mpr hfa
      have hmem : f ∈ as := by
        rcases List.mem_cons.mp hf with h | h
        · exact absurd h hfa
        · exact h
      simp [List.lookup, hbeq, ih f hmem]

/-- C1: in a bulk sync pass, for every selected entity the action chosen for
its operation is `update` exactly when the entity's `es_already_indexed`
flag is true and `force_reindexing` is false, and `index` otherwise. -/
theorem C1_bulk_action_choice :
    ∀ (idx : String) (db : List Entity) (force : Bool) (hits : List BulkHit)
      (documents : List ESDocument) (final : List Entity),
    es_bulk_action_on_model idx db force hits = Except.ok (documents, final) →
    ∀ (i : Nat) (obj : Entity),
      (ESDjangoIndexableMixin.get_es_indexable db force)[i]? = some obj →
      ∃ d, documents[i]? = some d ∧
        (d.op_type = "update" ↔ (obj.es_already_indexed = true ∧ force = false)) ∧
        (¬(obj.es_already_indexed = true ∧ force = false) → d.op_type = "index") := by
  intro idx db force hits documents final hok i obj hobj
  obtain ⟨hdocs, -⟩ := bulk_ok_parts hok
  subst hdocs
  refine ⟨builtDocument idx force obj, ?_, ?_, ?_⟩
  · rw [List.getElem?_map, hobj]
    rfl
  · rw [builtDocument_op_type]
    exact (bulkActionFor_update_iff obj force).1
  · intro hnot
    rw [builtDocument_op_type]
    exact (bulkActionFor_update_iff obj force).2 hnot

/-- Witness for C1: in the concrete run over `dbW` with
`force_reindexing=false`, the never-indexed entity at position 0 gets an
`index` operation. -/
theorem C1_bulk_action_choice_witness :
    ∃ d, docsW[0]? = some d ∧
      (d.op_type = "update" ↔ (entityFresh.es_already_indexed = true ∧ false = false)) ∧
      (¬(entityFresh.es_already_indexed = true ∧ false = false) → d.op_type = "index") :=
  C1_bulk_action_choice "the_index" dbW false hitsW docsW finalW rfl 0 entityFresh rfl

/-- C2: for every entity and valid action, the built bulk operation has the
declared wire shape: `index` carries the full source and carries `_id` only
when `es_id` is non-empty; `update` always carries `_id` plus a `doc`
patch; `delete` carries only `_id`; and every operation carries the
operation kind, the target index name, and the entity's content type. -/
theorem C2_wire_shape :
    ∀ (idx : String) (obj : Entity) (action : String),
    action = "index" ∨ action = "update" ∨ action = "delete" →
    ∃ d, make_es_document idx obj action = Except.ok d ∧
      d.op_type = action ∧ d.index = idx ∧ d.typeName = get_es_content_type obj.cls ∧
      (action = "index" →
        d.source = some obj.get_es_document_source ∧ d.doc = none ∧
        d.id = if obj.es_id ≠ "" then some obj.es_id else none) ∧
      (action = "update" →
        d.id = some obj.es_id ∧ d.doc = some obj.get_es_document_source ∧ d.source = none) ∧
      (action = "delete" →
        d.id = some obj.es_id ∧ d.source = none ∧ d.doc = none) := by
  intro idx obj action hact
  rcases hact with h | h | h <;> subst h
  · refine ⟨_, rfl, ?_⟩
    simp [make_es_document]
  · refine ⟨_, rfl, ?_⟩
    simp [make_es_document]
  · refine ⟨_, rfl, ?_⟩
    simp [make_es_document]

/-- Witness for C2: the wire shape of a concrete `update` operation for
`entityIndexed`. -/
theorem C2_wire_shape_witness :
    ∃ d, make_es_document "the_index" entityIndexed "update" = Except.ok d ∧
      d.op_type = "update" ∧ d.index = "the_index" ∧
      d.typeName = get_es_content_type entityIndexed.cls ∧
      ("update" = "index" →
        d.source = some entityIndexed.get_es_document_source ∧ d.doc = none ∧
        d.id = if entityIndexed.es_id ≠ "" then some entityIndexed.es_id else none) ∧
      ("update" = "update" →
        d.id = some entityIndexed.es_id ∧
        d.doc = some entityIndexed.get_es_document_source ∧ d.source = none) ∧
      ("update" = "delete" →
        d.id = some entityIndexed.es_id ∧ d.source = none ∧ d.doc = none) :=
  C2_wire_shape "the_index" entityIndexed "update" (Or.inr (Or.inl rfl))

/-- C3: after a successful bulk pass, for each successful per-item result
the entity at the same position has been fed to `es_done_indexing`, so its
`es_flagged` is false, its `es_already_indexed` is true, and its `es_id`
equals the identifier the remote result carries for it; the save inside
`es_done_indexing` passes `es_flagged=False` and so does not re-set the
dirty flag. -/
theorem C3_reconciliation :
    ∀ (idx : String) (db : List Entity) (force : Bool) (hits : List BulkHit)
      (documents : List ESDocument) (final : List Entity),
    es_bulk_action_on_model idx db force hits = Except.ok (documents, final) →
    ∀ (i : Nat) (h : BulkHit), hits[i]? = some h → h.ok = true →
    ∃ obj given_id,
      (ESDjangoIndexableMixin.get_es_indexable db force)[i]? = some obj ∧
      hitId h (bulkActionFor obj force) = some given_id ∧
      final[i]? = some (ESDjangoIndexableMixin.es_done_indexing obj given_id) ∧
      (ESDjangoIndexableMixin.es_done_indexing obj given_id).es_flagged = false ∧
      (ESDjangoIndexableMixin.es_done_indexing obj given_id).es_already_indexed = true ∧
      (ESDjangoIndexableMixin.es_done_indexing obj given_id).es_id = given_id := by
  intro idx db force hits documents final hok i h hhit hsucc
  obtain ⟨-, hrec⟩ := bulk_ok_parts hok
  obtain ⟨-, -, hproc⟩ := reconcile_ok_spec force hits _ final 0 hrec
  obtain ⟨obj, gid, h1, h2, h3⟩ := hproc i h hhit
  rw [Nat.zero_add] at h1 h3
  exact ⟨obj, gid, h1, h2, h3, rfl, rfl, rfl⟩

/-- Witness for C3: in the concrete run, position 0's entity ends up
unflagged, marked as indexed, and carrying the id "10" from the result. -/
theorem C3_reconciliation_witness :
    ∃ obj given_id,
      (ESDjangoIndexableMixin.get_es_indexable dbW false)[0]? = some obj ∧
      hitId hitW0 (bulkActionFor obj false) = some given_id ∧
      finalW[0]? = some (ESDjangoIndexableMixin.es_done_indexing obj given_id) ∧
      (ESDjangoIndexableMixin.es_done_indexing obj given_id).es_flagged = false ∧
      (ESDjangoIndexableMixin.es_done_indexing obj given_id).es_already_indexed = true ∧
      (ESDjangoIndexableMixin.es_done_indexing obj given_id).es_id = given_id :=
  C3_reconciliation "the_index" dbW false hitsW docsW finalW rfl 0 hitW0 rfl rfl

/-- C4, counterexample to the claim as stated: on the depth-3 hierarchy
`C < B < A < ESDjangoIndexableMixin`, the code computes `"b_c"` from the
direct bases only, while the claimed full-ancestry walk (most-general
ancestor first) gives `"a_b_c"`. -/
theorem C4_content_type_counterexample :
    get_es_content_type clsC = "b_c" ∧ get_es_content_type_spec clsC = "a_b_c" ∧
    get_es_content_type clsC ≠ get_es_content_type_spec clsC := by
  refine ⟨by decide, by decide, by decide⟩

/-- C4, amended: the content type concatenates with underscores the
lowercased names of only the DIRECT bases that implement the indexable
capability and are not the `ESDjangoIndexableMixin` marker (in reverse
declaration order), followed by the type's own lowercased name; it is a
pure function of the type. -/
theorem C4_content_type_direct_bases :
    ∀ (cls : PyClass), get_es_content_type cls = get_es_content_type_amended cls := by
  intro cls
  rw [get_es_content_type, get_es_content_type_amended, directBaseNames,
    intercalate_append_singleton, foldl_contentTypeStep]

/-- C5: the document source is a mapping whose key list equals the
mapping's field names; each declared field holds the entity's attribute
(with a callable invoked to obtain its value), and an unset attribute
yields the `None` placeholder rather than being omitted. -/
theorem C5_document_source :
    ∀ (e : Entity),
      (e.get_es_document_source.map Prod.fst) = e.mappingFields ∧
      (∀ field, field ∈ e.mappingFields →
        e.get_es_document_source.lookup field =
          some (resolveAttr (getattrOrNone e.attrs field))) ∧
      (∀ field, field ∈ e.mappingFields → e.attrs.lookup field = none →
        e.get_es_document_source.lookup field = some PyValue.pyNone) := by
  intro e
  refine ⟨?_, ?_, ?_⟩
  · unfold Entity.get_es_document_source
    rw [List.map_map]
    exact List.map_id e.mappingFields
  · intro field hf
    exact lookup_map_self _ e.mappingFields field hf
  · intro field hf hnone
    have h2 : e.get_es_document_source.lookup field =
        some (resolveAttr (getattrOrNone e.attrs field)) :=
      lookup_map_self _ e.mappingFields field hf
    rw [h2]
    simp [getattrOrNone, hnone, resolveAttr]

/-- Witness for C5: concrete key list and field value for `entityFresh`. -/
theorem C5_document_source_witness :
    (entityFresh.get_es_document_source.map Prod.fst) = entityFresh.mappingFields ∧
    entityFresh.get_es_document_source.lookup "title" =
      some (resolveAttr (getattrOrNone entityFresh.attrs "title")) :=
  ⟨(C5_document_source entityFresh).1,
   (C5_document_source entityFresh).2.1 "title" (by decide)⟩

/-- C6: constructing a bulk operation with an action other than `index`,
`update` or `delete` fails immediately with the `ValueError`, before any
field of the operation is assembled. -/
theorem C6_invalid_action :
    ∀ (idx : String) (obj : Entity) (action : String),
    action ≠ "index" → action ≠ "update" → action ≠ "delete" →
    make_es_document idx obj action =
      Except.error "action must be `index`, `update` or `delete`" := by
  intro idx obj action h1 h2 h3
  unfold make_es_document
  have hc : (["index", "update", "delete"].contains action) = false := by
    simp [List.contains, h1, h2, h3]
  rw [hc]
  simp

/-- Witness for C6: the action `"merge"` is rejected with the
`ValueError`. -/
theorem C6_invalid_action_witness :
    make_es_document "the_index" entityFresh "merge" =
      Except.error "action must be `index`, `update` or `delete`" :=
  C6_invalid_action "the_index" entityFresh "merge" (by decide) (by decide) (by decide)

/-- C7, counterexample to the claim as stated: building an `update`
operation for `entityNoId`, whose `es_id` is empty, does NOT surface any
defect — it succeeds and silently produces an operation whose `_id` field
is the empty string. -/
theorem C7_missing_id_counterexample :
    entityNoId.es_id = "" ∧
    make_es_document "the_index" entityNoId "update" = Except.ok updateDocNoId ∧
    updateDocNoId.id = some "" :=
  ⟨rfl, rfl, rfl⟩

/-- C7, amended: building an `update` or `delete` operation for an entity
whose `es_id` is empty performs no validation and raises nothing: it
succeeds and produces an operation whose identifier field is present but
empty. -/
theorem C7_missing_id_no_validation :
    ∀ (idx : String) (obj : Entity), obj.es_id = "" →
    (∃ d, make_es_document idx obj "update" = Except.ok d ∧ d.id = some "") ∧
    (∃ d, make_es_document idx obj "delete" = Except.ok d ∧ d.id = some "") := by
  intro idx obj hid
  constructor
  · refine ⟨_, rfl, ?_⟩
    show some obj.es_id = some ""
    rw [hid]
  · refine ⟨_, rfl, ?_⟩
    show some obj.es_id = some ""
    rw [hid]

/-- Witness for the amended C7, at the concrete entity `entityNoId`. -/
theorem C7_missing_id_no_validation_witness :
    (∃ d, make_es_document "the_index" entityNoId "update" = Except.ok d ∧ d.id = some "") ∧
    (∃ d, make_es_document "the_index" entityNoId "delete" = Except.ok d ∧ d.id = some "") :=
  C7_missing_id_no_validation "the_index" entityNoId rfl

/-- C8: the reconciliation pass runs under `@atomic`; when any step of the
pass fails, the table is left exactly as it was before the call. -/
theorem C8_atomic_rollback :
    ∀ (idx : String) (db : List Entity) (force : Bool) (hits : List BulkHit) (msg : String),
    es_bulk_action_on_model idx db force hits = Except.error msg →
    es_bulk_pass idx db force hits = db := by
  intro idx db force hits msg h
  unfold es_bulk_pass
  rw [h]

/-- Witness for C8: a run whose reconciliation raises a `KeyError` (the
result lacks the action key) leaves the one-row table unchanged. -/
theorem C8_atomic_rollback_witness :
    es_bulk_pass "the_index" [entityFresh] false [⟨true, []⟩] = [entityFresh] :=
  C8_atomic_rollback "the_index" [entityFresh] false [⟨true, []⟩] "KeyError" rfl

/-- C9: for the same table, the selection with `force_reindexing=true` is
the full row set, hence a superset of the selection with
`force_reindexing=false`, which holds exactly the rows whose `es_flagged`
is true. -/
theorem C9_pending_superset :
    ∀ (db : List Entity),
      ESDjangoIndexableMixin.get_es_indexable db true = db ∧
      ESDjangoIndexableMixin.get_es_indexable db false ⊆
        ESDjangoIndexableMixin.get_es_indexable db true ∧
      (∀ e, e ∈ ESDjangoIndexableMixin.get_es_indexable db false ↔
        (e ∈ db ∧ e.es_flagged = true)) := by
  intro db
  refine ⟨rfl, ?_, ?_⟩
  · show db.filter (fun e => e.es_flagged) ⊆ db
    intro x hx
    exact (List.mem_filter.mp hx).1
  · intro e
    show e ∈ db.filter (fun e => e.es_flagged) ↔ _
    rw [List.mem_filter]

/-- Witness for C9: the selections over the concrete table `dbW`. -/
theorem C9_pending_superset_witness :
    ESDjangoIndexableMixin.get_es_indexable dbW true = dbW ∧
    (entityFresh ∈ ESDjangoIndexableMixin.get_es_indexable dbW false ↔
      (entityFresh ∈ dbW ∧ entityFresh.es_flagged = true)) :=
  ⟨(C9_pending_superset dbW).1, (C9_pending_superset dbW).2.2 entityFresh⟩

/-- C10: Django construction sets `es_id` to `str(pk)`, which is never the
empty string (it is `"None"` when the primary key is unset), so an `index`
operation built for a freshly constructed entity always carries an
explicit `_id`. -/
theorem C10_django_init_id :
    ∀ (e : Entity) (idx : String),
      (ESDjangoIndexableMixin.init e).es_id ≠ "" ∧
      ∃ d, make_es_document idx (ESDjangoIndexableMixin.init e) "index" = Except.ok d ∧
        d.id = some (pyStrOfPk e.pk) := by
  intro e idx
  constructor
  · exact pyStrOfPk_ne_empty e.pk
  · refine ⟨_, rfl, ?_⟩
    show (if ((ESDjangoIndexableMixin.init e).es_id ≠ "") then
            some (ESDjangoIndexableMixin.init e).es_id else none) = some (pyStrOfPk e.pk)
    have hne : (ESDjangoIndexableMixin.init e).es_id ≠ "" := pyStrOfPk_ne_empty e.pk
    rw [if_pos hne]
    rfl

/-- Witness for C10: `entityNoId` has an unset primary key, and after
construction its `es_id` is the non-empty string `"None"`. -/
theorem C10_django_init_id_witness :
    (ESDjangoIndexableMixin.init entityNoId).es_id ≠ "" ∧
    ∃ d, make_es_document "the_index" (ESDjangoIndexableMixin.init entityNoId) "index" =
        Except.ok d ∧
      d.id = some (pyStrOfPk entityNoId.pk) :=
  C10_django_init_id entityNoId "the_index"
